import Mathlib

/-!
Verification of the Account REST service (`service/routes.py`).

The HTTP handlers are embedded from `src/service/routes.py`.  The Account
entity and its store adapter live in `service/models.py`, which is not part
of the provided sources (only its callers in `routes.py` and the tests are);
those operations are modelled from the specification, section 4.1, and are
marked as such in their doc comments.
-/

/-- A JSON request payload for an Account, as a mapping of field name to
value.  Payload fields are modelled as optional strings: an absent key is
`none`.  (Shape errors such as a non-string value are not representable in
this model; none of the verified properties exercise them.) -/
structure Payload where
  name : Option String
  email : Option String
  address : Option String
  phone_number : Option String
  date_joined : Option String
deriving DecidableEq, Repr

/-- Modelled from the spec: the mutable data of an Account entity, i.e. all
attributes except the store-assigned `id` (spec section 3). -/
structure AccountData where
  name : String
  email : String
  address : String
  phone_number : Option String
  date_joined : String
deriving DecidableEq, Repr

/-- Modelled from the spec: a persisted Account row — an `id` uniquely
assigned by the store on creation, plus the entity data (spec section 3). -/
structure StoredAccount where
  id : Nat
  data : AccountData
deriving DecidableEq, Repr

/-- Modelled from the spec: the persistent backing relation for Accounts,
keyed by an auto-assigned integer primary key (spec section 6): the rows,
plus the next id the store will assign (ids are never reused). -/
structure Store where
  rows : List StoredAccount
  nextId : Nat
deriving DecidableEq, Repr

/-- The serialized (wire) representation of an Account: all attributes,
including the numeric `id` and `date_joined` rendered as a date string. -/
structure AccountJson where
  id : Nat
  name : String
  email : String
  address : String
  phone_number : Option String
  date_joined : String
deriving DecidableEq, Repr

/-- Modelled from the spec: `deserialize(payload)` (section 4.1) consumes a
field-name-to-value mapping; fails with a validation error when a required
field (`name`, `email`, `address`) is absent; on success populates the data
fields of the entity, with `date_joined` defaulted to the current date when
not supplied (section 3); does not touch `id`. -/
def deserialize (today : String) (p : Payload) : Except String AccountData :=
  match p.name, p.email, p.address with
  | some n, some e, some a =>
      .ok { name := n, email := e, address := a,
            phone_number := p.phone_number,
            date_joined := p.date_joined.getD today }
  | _, _, _ => .error "Invalid Account: missing required field"

/-- Modelled from the spec: `serialize()` (section 4.1) produces a mapping
of all attributes; never fails. -/
def serialize (a : StoredAccount) : AccountJson :=
  { id := a.id, name := a.data.name, email := a.data.email,
    address := a.data.address, phone_number := a.data.phone_number,
    date_joined := a.data.date_joined }

/-- Modelled from the spec: `create()` (section 4.1) inserts a new row and
the store assigns the `id`: the entity gains a concrete `id`. -/
def Store.create (st : Store) (d : AccountData) : StoredAccount × Store :=
  let a : StoredAccount := { id := st.nextId, data := d }
  (a, { rows := st.rows ++ [a], nextId := st.nextId + 1 })

/-- Modelled from the spec: `find(id)` (section 4.1) returns the entity for
`id`, or a not-found sentinel (here `none`). -/
def Store.find (st : Store) (i : Nat) : Option StoredAccount :=
  st.rows.find? (fun r => r.id == i)

/-- Modelled from the spec: `update()` (section 4.1) overwrites the mutable
fields of the row whose key is the id of the entity. -/
def Store.update (st : Store) (i : Nat) (d : AccountData) : Store :=
  { st with rows := st.rows.map (fun r => if r.id == i then { id := i, data := d } else r) }

/-- Modelled from the spec: `delete()` (section 4.1) removes the row whose
key is the id of the entity, if present; no-op if absent. -/
def Store.delete (st : Store) (i : Nat) : Store :=
  { st with rows := st.rows.filter (fun r => r.id != i) }

/-- Modelled from the spec: `all()` (section 4.1) produces every stored
entity, in store order. -/
def Store.allRows (st : Store) : List StoredAccount :=
  st.rows

/-- An incoming HTTP request to an account route: the `Content-Type` header
(absent is `none`) and the parsed JSON body. -/
structure Request where
  contentType : Option String
  body : Payload
deriving DecidableEq, Repr

/-- A response body: a serialized account, a list of them, a plain message
(error descriptions), or the empty body. -/
inductive Body where
  | json (a : AccountJson)
  | jsonList (l : List AccountJson)
  | text (s : String)
  | empty
deriving DecidableEq, Repr

/-- An HTTP response: status code, body, and the optional `Location`
header. -/
structure Response where
  status : Nat
  body : Body
  location : Option String := none
deriving DecidableEq, Repr

/-- Embeds `check_content_type` from `routes.py`: passes when the
`Content-Type` header is present, truthy and equal to the expected media
type; otherwise the request is aborted with 415. -/
def checkContentType (mediaType : String) (ct : Option String) : Bool :=
  match ct with
  | some c => !(c == "") && c == mediaType
  | none => false

/-- Embeds `create_accounts` from `routes.py` (POST /accounts): checks the content
type, then deserializes the body into a fresh Account, creates it in the
store, and answers 201 with the serialized account and a `Location` header
of `"/"` (the placeholder left until `get_accounts` exists).  A content-type
mismatch aborts with 415 before the body is read; a deserialization failure
aborts with 400 (validation errors map to 400 per spec section 7). -/
def create_accounts (today : String) (req : Request) (st : Store) : Response × Store :=
  if checkContentType "application/json" req.contentType then
    match deserialize today req.body with
    | .ok d =>
        let r := st.create d
        ({ status := 201, body := .json (serialize r.1), location := some "/" }, r.2)
    | .error m => ({ status := 400, body := .text m }, st)
  else
    ({ status := 415, body := .text "Content-Type must be application/json" }, st)

/-- Embeds `list_accounts` from `routes.py` (GET /accounts): serializes
every stored account and answers 200. -/
def list_accounts (st : Store) : Response × Store :=
  ({ status := 200, body := .jsonList (st.allRows.map serialize) }, st)

/-- Embeds `read_an_account` from `routes.py` (GET /accounts/id): 404 when
the id is absent, otherwise 200 with the serialized account. -/
def read_an_account (account_id : Nat) (st : Store) : Response × Store :=
  match st.find account_id with
  | none => ({ status := 404, body := .text "Cannot locate the account" }, st)
  | some a => ({ status := 200, body := .json (serialize a) }, st)

/-- Embeds `update_an_account` from `routes.py` (PUT /accounts/id): 404
when the id is absent; otherwise deserializes the body into the found
account (keeping its id), updates the row, and answers 200 with the
serialized updated account; a deserialization failure aborts with 400.  No
content-type check is performed. -/
def update_an_account (today : String) (account_id : Nat) (req : Request) (st : Store) :
    Response × Store :=
  match st.find account_id with
  | none => ({ status := 404, body := .text "Cannot locate the account" }, st)
  | some a =>
      match deserialize today req.body with
      | .error m => ({ status := 400, body := .text m }, st)
      | .ok d =>
          ({ status := 200, body := .json (serialize { id := a.id, data := d }) },
           st.update a.id d)

/-- Embeds `delete_an_account` from `routes.py` (DELETE /accounts/id):
deletes the row when the id is present, does nothing otherwise, and in
either case answers 204 with an empty body. -/
def delete_an_account (account_id : Nat) (st : Store) : Response × Store :=
  match st.find account_id with
  | some _ => ({ status := 204, body := .empty }, st.delete account_id)
  | none => ({ status := 204, body := .empty }, st)

/-- The id carried in a response body, when the body is a single serialized
account. -/
def respId (r : Response) : Option Nat :=
  match r.body with
  | .json a => some a.id
  | _ => none

/-- Running a sequence of create requests (content type `application/json`,
the given payload bodies) against the store, collecting the responses. -/
def create_many (today : String) (ps : List Payload) (st : Store) : List Response × Store :=
  match ps with
  | [] => ([], st)
  | p :: rest =>
      let r := create_accounts today { contentType := some "application/json", body := p } st
      let rs := create_many today rest r.2
      (r.1 :: rs.1, rs.2)

/-- The empty store, as at the start of a test run. -/
def Store.empty : Store := { rows := [], nextId := 1 }

/-- A store is well formed when every row carries an id strictly below the
next id the store will assign; every reachable store satisfies this, and it
is what makes the assigned ids unique. -/
def Store.Wf (st : Store) : Prop :=
  ∀ r ∈ st.rows, r.id < st.nextId

/-! ### Helper lemmas -/

theorem checkContentType_json :
    checkContentType "application/json" (some "application/json") = true := by
  decide

theorem deserialize_some (today : String) (p : Payload) (n e a : String)
    (hn : p.name = some n) (he : p.email = some e) (ha : p.address = some a) :
    deserialize today p =
      .ok { name := n, email := e, address := a,
            phone_number := p.phone_number,
            date_joined := p.date_joined.getD today } := by
  unfold deserialize
  rw [hn, he, ha]

theorem deserialize_missing (today : String) (p : Payload)
    (h : p.name = none ∨ p.email = none ∨ p.address = none) :
    deserialize today p = .error "Invalid Account: missing required field" := by
  cases hn : p.name <;> cases he : p.email <;> cases ha : p.address <;>
    simp_all [deserialize]

theorem create_accounts_ok (today : String) (st : Store) (p : Payload) (n e a : String)
    (hn : p.name = some n) (he : p.email = some e) (ha : p.address = some a) :
    create_accounts today { contentType := some "application/json", body := p } st =
      ({ status := 201,
         body := .json { id := st.nextId, name := n, email := e, address := a,
                         phone_number := p.phone_number,
                         date_joined := p.date_joined.getD today },
         location := some "/" },
       { rows := st.rows ++
           [{ id := st.nextId,
              data := { name := n, email := e, address := a,
                        phone_number := p.phone_number,
                        date_joined := p.date_joined.getD today } }],
         nextId := st.nextId + 1 }) := by
  simp [create_accounts, checkContentType_json, deserialize_some today p n e a hn he ha,
        Store.create, serialize]

theorem find?_append_last (rows : List StoredAccount) (x : StoredAccount)
    (h : ∀ r ∈ rows, r.id ≠ x.id) :
    (rows ++ [x]).find? (fun r => r.id == x.id) = some x := by
  induction rows with
  | nil => simp [List.find?]
  | cons y ys ih =>
      have hy : y.id ≠ x.id := h y (by simp)
      have hy' : (y.id == x.id) = false := by simpa using hy
      simp only [List.cons_append, List.find?, hy']
      exact ih (fun r hr => h r (List.mem_cons_of_mem y hr))

theorem find?_map_update (rows : List StoredAccount) (i : Nat) (d : AccountData)
    (h : (rows.find? (fun r => r.id == i)).isSome = true) :
    (rows.map (fun r => if r.id == i then { id := i, data := d } else r)).find?
      (fun r => r.id == i) = some { id := i, data := d } := by
  induction rows with
  | nil => simp [List.find?] at h
  | cons y ys ih =>
      by_cases hy : y.id = i
      · have hy' : (y.id == i) = true := by simpa using hy
        simp [List.find?, hy']
      · have hy' : (y.id == i) = false := by simpa using hy
        have h' : (ys.find? (fun r => r.id == i)).isSome = true := by
          simpa [List.find?, hy'] using h
        simp only [List.map_cons, hy', Bool.false_eq_true, if_false, List.find?, hy']
        exact ih h'

theorem find_id_eq (st : Store) (i : Nat) (a : StoredAccount)
    (h : st.find i = some a) : a.id = i := by
  have := List.find?_some h
  simpa using this

/-! ### Claim theorems -/

/-- C4: a POST /accounts request (content type `application/json`) whose
payload is missing a required field (name, email or address) answers 400,
and the store is not mutated: validation fails before the store insert. -/
theorem C4_missing_field_400_no_mutation (today : String) (p : Payload) (st : Store)
    (h : p.name = none ∨ p.email = none ∨ p.address = none) :
    (create_accounts today { contentType := some "application/json", body := p } st).1.status
      = 400 ∧
    (create_accounts today { contentType := some "application/json", body := p } st).2 = st := by
  have hd := deserialize_missing today p h
  simp [create_accounts, checkContentType_json, hd]

theorem C4_missing_field_400_no_mutation_witness :
    (({ name := some "a", email := some "a@b.com", address := none,
        phone_number := none, date_joined := none } : Payload).address = none) ∧
    (create_accounts "2024-01-02"
      { contentType := some "application/json",
        body := { name := some "a", email := some "a@b.com", address := none,
                  phone_number := none, date_joined := none } }
      Store.empty).1.status = 400 :=
  ⟨rfl,
   (C4_missing_field_400_no_mutation "2024-01-02"
      { name := some "a", email := some "a@b.com", address := none,
        phone_number := none, date_joined := none }
      Store.empty (Or.inr (Or.inr rfl))).1⟩

/-- C5: a POST /accounts request whose Content-Type header is not equal to
`application/json` answers 415. -/
theorem C5_wrong_content_type_415 (today : String) (req : Request) (st : Store)
    (h : req.contentType ≠ some "application/json") :
    (create_accounts today req st).1.status = 415 ∧
    (create_accounts today req st).2 = st := by
  have hcc : checkContentType "application/json" req.contentType = false := by
    cases hct : req.contentType with
    | none => rfl
    | some c =>
        have hc : c ≠ "application/json" := by
          intro hc
          exact h (by rw [hct, hc])
        simp [checkContentType, hc]
  simp [create_accounts, hcc]

theorem C5_wrong_content_type_415_witness :
    (({ contentType := some "text/html",
        body := { name := some "a", email := some "a@b.com", address := some "c",
                  phone_number := none, date_joined := none } } : Request).contentType
      ≠ some "application/json") ∧
    (create_accounts "2024-01-02"
      { contentType := some "text/html",
        body := { name := some "a", email := some "a@b.com", address := some "c",
                  phone_number := none, date_joined := none } }
      Store.empty).1.status = 415 :=
  ⟨by decide,
   (C5_wrong_content_type_415 "2024-01-02"
      { contentType := some "text/html",
        body := { name := some "a", email := some "a@b.com", address := some "c",
                  phone_number := none, date_joined := none } }
      Store.empty (by decide)).1⟩

/-- C8: a DELETE /accounts/id request always answers 204 with an empty
body, whether or not the account exists; when the id is absent the store is
left unchanged (deletion is idempotent, no error surfaced). -/
theorem C8_delete_always_204 (account_id : Nat) (st : Store) :
    (delete_an_account account_id st).1.status = 204 ∧
    (delete_an_account account_id st).1.body = .empty ∧
    (st.find account_id = none → (delete_an_account account_id st).2 = st) := by
  unfold delete_an_account
  cases h : st.find account_id <;> simp [h]

theorem C8_delete_always_204_witness :
    Store.empty.find 7 = none ∧ (delete_an_account 7 Store.empty).2 = Store.empty :=
  ⟨rfl, (C8_delete_always_204 7 Store.empty).2.2 rfl⟩

/-- C10: a POST /accounts request with no Content-Type header at all
answers 415 and leaves the store unchanged, whatever the body: the
content-type check runs before the body is parsed or deserialized, so 415
takes precedence over 400. -/
theorem C10_absent_content_type_415 (today : String) (p : Payload) (st : Store) :
    (create_accounts today { contentType := none, body := p } st).1.status = 415 ∧
    (create_accounts today { contentType := none, body := p } st).2 = st := by
  simp [create_accounts, checkContentType]

/-- C1 counterexample: the Location header does not identify the newly
created resource.  Two creates of distinct accounts (assigned ids 1 and 2)
both answer with the constant Location value "/", so the header value does
not determine which resource was created. -/
theorem C1_location_not_identifying :
    ((create_accounts "2024-01-02"
        { contentType := some "application/json",
          body := { name := some "Ann", email := some "ann@x.io", address := some "1 A St",
                    phone_number := none, date_joined := some "2024-01-01" } }
        Store.empty).1.location = some "/") ∧
    ((create_accounts "2024-01-02"
        { contentType := some "application/json",
          body := { name := some "Bob", email := some "bob@x.io", address := some "2 B St",
                    phone_number := none, date_joined := some "2024-01-01" } }
        (create_accounts "2024-01-02"
          { contentType := some "application/json",
            body := { name := some "Ann", email := some "ann@x.io", address := some "1 A St",
                      phone_number := none, date_joined := some "2024-01-01" } }
          Store.empty).2).1.location = some "/") ∧
    respId (create_accounts "2024-01-02"
        { contentType := some "application/json",
          body := { name := some "Ann", email := some "ann@x.io", address := some "1 A St",
                    phone_number := none, date_joined := some "2024-01-01" } }
        Store.empty).1 = some 1 ∧
    respId (create_accounts "2024-01-02"
        { contentType := some "application/json",
          body := { name := some "Bob", email := some "bob@x.io", address := some "2 B St",
                    phone_number := none, date_joined := some "2024-01-01" } }
        (create_accounts "2024-01-02"
          { contentType := some "application/json",
            body := { name := some "Ann", email := some "ann@x.io", address := some "1 A St",
                      phone_number := none, date_joined := some "2024-01-01" } }
          Store.empty).2).1 = some 2 := by
  decide

/-- C1 amended: a POST /accounts request with content type
`application/json` whose body carries the required fields answers 201; the
body is the serialized account echoing the input fields plus the numeric
store-assigned id and a `date_joined` string (the supplied one, or the
current date); and the response carries a Location header whose value is
the constant "/" (present, but not identifying the new resource). -/
theorem C1_create_valid_201 (today : String) (st : Store) (p : Payload) (n e a : String)
    (hn : p.name = some n) (he : p.email = some e) (ha : p.address = some a) :
    (create_accounts today { contentType := some "application/json", body := p } st).1 =
      { status := 201,
        body := .json { id := st.nextId, name := n, email := e, address := a,
                        phone_number := p.phone_number,
                        date_joined := p.date_joined.getD today },
        location := some "/" } := by
  rw [create_accounts_ok today st p n e a hn he ha]

theorem C1_create_valid_201_witness :
    (({ name := some "Ann", email := some "ann@x.io", address := some "1 A St",
        phone_number := some "555", date_joined := some "2024-01-01" } : Payload).name
      = some "Ann") ∧
    (create_accounts "2024-01-02"
      { contentType := some "application/json",
        body := { name := some "Ann", email := some "ann@x.io", address := some "1 A St",
                  phone_number := some "555", date_joined := some "2024-01-01" } }
      Store.empty).1 =
      { status := 201,
        body := .json { id := 1, name := "Ann", email := "ann@x.io", address := "1 A St",
                        phone_number := some "555", date_joined := "2024-01-01" },
        location := some "/" } :=
  ⟨rfl,
   C1_create_valid_201 "2024-01-02" Store.empty
     { name := some "Ann", email := some "ann@x.io", address := some "1 A St",
       phone_number := some "555", date_joined := some "2024-01-01" }
     "Ann" "ann@x.io" "1 A St" rfl rfl rfl⟩

/-- C2: after a valid create on a well-formed store, a GET by the id
returned in the create response answers 200 with exactly the body the
create returned. -/
theorem C2_create_read_roundtrip (today : String) (st : Store) (p : Payload) (n e a : String)
    (hwf : st.Wf)
    (hn : p.name = some n) (he : p.email = some e) (ha : p.address = some a) :
    respId (create_accounts today { contentType := some "application/json", body := p } st).1
      = some st.nextId ∧
    (read_an_account st.nextId
      (create_accounts today { contentType := some "application/json", body := p } st).2).1.status
      = 200 ∧
    (read_an_account st.nextId
      (create_accounts today { contentType := some "application/json", body := p } st).2).1.body
      = (create_accounts today { contentType := some "application/json", body := p } st).1.body := by
  rw [create_accounts_ok today st p n e a hn he ha]
  have hfind :
      ((st.rows ++
        [{ id := st.nextId,
           data := { name := n, email := e, address := a,
                     phone_number := p.phone_number,
                     date_joined := p.date_joined.getD today } }] : List StoredAccount)).find?
        (fun r => r.id == st.nextId) =
      some { id := st.nextId,
             data := { name := n, email := e, address := a,
                       phone_number := p.phone_number,
                       date_joined := p.date_joined.getD today } } :=
    find?_append_last st.rows
      { id := st.nextId,
        data := { name := n, email := e, address := a,
                  phone_number := p.phone_number,
                  date_joined := p.date_joined.getD today } }
      (fun r hr => Nat.ne_of_lt (hwf r hr))
  refine ⟨rfl, ?_, ?_⟩ <;>
    simp [read_an_account, Store.find, hfind, serialize]

theorem C2_create_read_roundtrip_witness :
    Store.empty.Wf ∧
    (read_an_account Store.empty.nextId
      (create_accounts "2024-01-02"
        { contentType := some "application/json",
          body := { name := some "Ann", email := some "ann@x.io", address := some "1 A St",
                    phone_number := none, date_joined := none } }
        Store.empty).2).1.body
      = (create_accounts "2024-01-02"
          { contentType := some "application/json",
            body := { name := some "Ann", email := some "ann@x.io", address := some "1 A St",
                      phone_number := none, date_joined := none } }
          Store.empty).1.body :=
  ⟨fun r hr => by simp [Store.empty] at hr,
   (C2_create_read_roundtrip "2024-01-02" Store.empty
     { name := some "Ann", email := some "ann@x.io", address := some "1 A St",
       phone_number := none, date_joined := none }
     "Ann" "ann@x.io" "1 A St"
     (fun r hr => by simp [Store.empty] at hr) rfl rfl rfl).2.2⟩

/-- C6: for a PUT /accounts/id request, an absent id answers 404 (store
unchanged); an existing id with a body the entity fails to deserialize
answers 400 (store unchanged); an existing id with a valid body answers 200
with the serialized updated account. -/
theorem C6_update_status_mapping (today : String) (account_id : Nat) (req : Request)
    (st : Store) :
    (st.find account_id = none →
      (update_an_account today account_id req st).1.status = 404 ∧
      (update_an_account today account_id req st).2 = st) ∧
    (∀ a : StoredAccount, st.find account_id = some a →
      (∀ m : String, deserialize today req.body = .error m →
        (update_an_account today account_id req st).1.status = 400 ∧
        (update_an_account today account_id req st).2 = st) ∧
      (∀ d : AccountData, deserialize today req.body = .ok d →
        (update_an_account today account_id req st).1.status = 200 ∧
        (update_an_account today account_id req st).1.body
          = .json (serialize { id := a.id, data := d }))) := by
  unfold update_an_account
  cases hf : st.find account_id <;>
    cases hd : deserialize today req.body <;>
      simp [hf, hd]

theorem C6_update_status_mapping_witness :
    Store.empty.find 5 = none ∧
    (update_an_account "2024-01-02" 5
      { contentType := some "application/json",
        body := { name := some "Ann", email := some "ann@x.io", address := some "1 A St",
                  phone_number := none, date_joined := none } }
      Store.empty).1.status = 404 :=
  ⟨rfl,
   ((C6_update_status_mapping "2024-01-02" 5
      { contentType := some "application/json",
        body := { name := some "Ann", email := some "ann@x.io", address := some "1 A St",
                  phone_number := none, date_joined := none } }
      Store.empty).1 rfl).1⟩

/-- C7: the content-type check applies only to create, not to update: a PUT
/accounts/id request is never answered 415, whatever the Content-Type
header; when the account exists and the body fails to deserialize the
answer is 400 instead. -/
theorem C7_update_never_415 (today : String) (account_id : Nat) (req : Request)
    (st : Store) :
    (update_an_account today account_id req st).1.status ≠ 415 ∧
    (∀ a : StoredAccount, st.find account_id = some a →
      ∀ m : String, deserialize today req.body = .error m →
        (update_an_account today account_id req st).1.status = 400) := by
  unfold update_an_account
  cases hf : st.find account_id <;>
    cases hd : deserialize today req.body <;>
      simp [hf, hd]

theorem C7_update_never_415_witness :
    (update_an_account "2024-01-02" 1
      { contentType := some "text/html",
        body := { name := none, email := none, address := none,
                  phone_number := none, date_joined := none } }
      { rows := [{ id := 1,
                   data := { name := "Ann", email := "ann@x.io", address := "1 A St",
                             phone_number := none, date_joined := "2024-01-01" } }],
        nextId := 2 }).1.status ≠ 415 ∧
    ({ rows := [{ id := 1,
                  data := { name := "Ann", email := "ann@x.io", address := "1 A St",
                            phone_number := none, date_joined := "2024-01-01" } }],
       nextId := 2 } : Store).find 1
      = some { id := 1,
               data := { name := "Ann", email := "ann@x.io", address := "1 A St",
                         phone_number := none, date_joined := "2024-01-01" } } ∧
    (update_an_account "2024-01-02" 1
      { contentType := some "text/html",
        body := { name := none, email := none, address := none,
                  phone_number := none, date_joined := none } }
      { rows := [{ id := 1,
                   data := { name := "Ann", email := "ann@x.io", address := "1 A St",
                             phone_number := none, date_joined := "2024-01-01" } }],
        nextId := 2 }).1.status = 400 :=
  ⟨(C7_update_never_415 "2024-01-02" 1
      { contentType := some "text/html",
        body := { name := none, email := none, address := none,
                  phone_number := none, date_joined := none } }
      { rows := [{ id := 1,
                   data := { name := "Ann", email := "ann@x.io", address := "1 A St",
                             phone_number := none, date_joined := "2024-01-01" } }],
        nextId := 2 }).1,
   rfl,
   (C7_update_never_415 "2024-01-02" 1
      { contentType := some "text/html",
        body := { name := none, email := none, address := none,
                  phone_number := none, date_joined := none } }
      { rows := [{ id := 1,
                   data := { name := "Ann", email := "ann@x.io", address := "1 A St",
                             phone_number := none, date_joined := "2024-01-01" } }],
        nextId := 2 }).2
     { id := 1,
       data := { name := "Ann", email := "ann@x.io", address := "1 A St",
                 phone_number := none, date_joined := "2024-01-01" } }
     rfl "Invalid Account: missing required field" rfl⟩

/-- C9 counterexample: a successful PUT does not leave fields absent from
the request body unchanged.  The stored account has phone number 555; the
update body carries name, email, address and date but no phone number; the
request succeeds with 200, yet the stored phone number afterwards is empty
rather than the unchanged 555. -/
theorem C9_update_not_field_preserving :
    (update_an_account "2024-03-01" 1
      { contentType := some "application/json",
        body := { name := some "Ann2", email := some "ann@x.io", address := some "1 A St",
                  phone_number := none, date_joined := some "2024-01-01" } }
      { rows := [{ id := 1,
                   data := { name := "Ann", email := "ann@x.io", address := "1 A St",
                             phone_number := some "555", date_joined := "2024-01-01" } }],
        nextId := 2 }).1.status = 200 ∧
    (update_an_account "2024-03-01" 1
      { contentType := some "application/json",
        body := { name := some "Ann2", email := some "ann@x.io", address := some "1 A St",
                  phone_number := none, date_joined := some "2024-01-01" } }
      { rows := [{ id := 1,
                   data := { name := "Ann", email := "ann@x.io", address := "1 A St",
                             phone_number := some "555", date_joined := "2024-01-01" } }],
        nextId := 2 }).2.rows =
      [{ id := 1,
         data := { name := "Ann2", email := "ann@x.io", address := "1 A St",
                   phone_number := none, date_joined := "2024-01-01" } }] := by
  decide

/-- C9 amended: a successful PUT /accounts/id is a full replace: every
mutable field of the stored row is set from the deserialized body (with
`phone_number` becoming the value in the body, or empty when the body omits
it, and `date_joined` the value in the body, or the current date when the
body omits it); the replaced fields are what the response returns and what
the next read returns. -/
theorem C9_update_full_replace (today : String) (account_id : Nat) (req : Request)
    (st : Store) (a : StoredAccount) (d : AccountData)
    (hf : st.find account_id = some a)
    (hd : deserialize today req.body = .ok d) :
    (update_an_account today account_id req st).1.status = 200 ∧
    (update_an_account today account_id req st).1.body
      = .json (serialize { id := account_id, data := d }) ∧
    (read_an_account account_id (update_an_account today account_id req st).2).1.body
      = .json (serialize { id := account_id, data := d }) := by
  have hid : a.id = account_id := find_id_eq st account_id a hf
  have hsome : (st.rows.find? (fun r => r.id == account_id)).isSome = true := by
    unfold Store.find at hf
    rw [hf]
    rfl
  have hfind := find?_map_update st.rows account_id d hsome
  unfold update_an_account
  simp only [hf, hd, hid]
  refine ⟨trivial, trivial, ?_⟩
  have hfind2 : (st.update account_id d).find account_id
      = some { id := account_id, data := d } := hfind
  unfold read_an_account
  rw [hfind2]

theorem C9_update_full_replace_witness :
    (({ rows := [{ id := 1,
                   data := { name := "Ann", email := "ann@x.io", address := "1 A St",
                             phone_number := some "555", date_joined := "2024-01-01" } }],
        nextId := 2 } : Store).find 1
      = some { id := 1,
               data := { name := "Ann", email := "ann@x.io", address := "1 A St",
                         phone_number := some "555", date_joined := "2024-01-01" } }) ∧
    (read_an_account 1
      (update_an_account "2024-03-01" 1
        { contentType := some "application/json",
          body := { name := some "Ann2", email := some "ann@x.io", address := some "1 A St",
                    phone_number := none, date_joined := some "2024-01-01" } }
        { rows := [{ id := 1,
                     data := { name := "Ann", email := "ann@x.io", address := "1 A St",
                               phone_number := some "555", date_joined := "2024-01-01" } }],
          nextId := 2 }).2).1.body
      = .json (serialize
          { id := 1,
            data := { name := "Ann2", email := "ann@x.io", address := "1 A St",
                      phone_number := none, date_joined := "2024-01-01" } }) :=
  ⟨rfl,
   (C9_update_full_replace "2024-03-01" 1
      { contentType := some "application/json",
        body := { name := some "Ann2", email := some "ann@x.io", address := some "1 A St",
                  phone_number := none, date_joined := some "2024-01-01" } }
      { rows := [{ id := 1,
                   data := { name := "Ann", email := "ann@x.io", address := "1 A St",
                             phone_number := some "555", date_joined := "2024-01-01" } }],
        nextId := 2 }
      { id := 1,
        data := { name := "Ann", email := "ann@x.io", address := "1 A St",
                  phone_number := some "555", date_joined := "2024-01-01" } }
      { name := "Ann2", email := "ann@x.io", address := "1 A St",
        phone_number := none, date_joined := "2024-01-01" }
      rfl rfl).2.2⟩

theorem create_many_rows (today : String) (ps : List Payload) :
    ∀ st : Store, (∀ p ∈ ps, p.name.isSome ∧ p.email.isSome ∧ p.address.isSome) →
      (create_many today ps st).2.rows.length = st.rows.length + ps.length ∧
      ∀ r ∈ (create_many today ps st).2.rows,
        r ∈ st.rows ∨ some r.id ∈ (create_many today ps st).1.map respId := by
  induction ps with
  | nil =>
      intro st _
      refine ⟨by simp [create_many], fun r hr => Or.inl ?_⟩
      simpa [create_many] using hr
  | cons p rest ih =>
      intro st h
      obtain ⟨n, hn⟩ := Option.isSome_iff_exists.mp (h p (List.mem_cons_self p rest)).1
      obtain ⟨e, he⟩ := Option.isSome_iff_exists.mp (h p (List.mem_cons_self p rest)).2.1
      obtain ⟨a, ha⟩ := Option.isSome_iff_exists.mp (h p (List.mem_cons_self p rest)).2.2
      have hrest : ∀ q ∈ rest, q.name.isSome ∧ q.email.isSome ∧ q.address.isSome :=
        fun q hq => h q (List.mem_cons_of_mem p hq)
      obtain ⟨hlen, hmem⟩ :=
        ih { rows := st.rows ++
               [{ id := st.nextId,
                  data := { name := n, email := e, address := a,
                            phone_number := p.phone_number,
                            date_joined := p.date_joined.getD today } }],
             nextId := st.nextId + 1 } hrest
      simp only [create_many, create_accounts_ok today st p n e a hn he ha]
      constructor
      · rw [hlen]
        simp
        omega
      · intro r hr
        rcases hmem r hr with hin | hin
        · rcases List.mem_append.mp hin with hl | hl
          · exact Or.inl hl
          · right
            have hrx : r.id = st.nextId := by
              rw [List.mem_singleton.mp hl]
            rw [List.map_cons, hrx]
            simp [respId]
        · right
          rw [List.map_cons]
          exact List.mem_cons_of_mem _ hin

/-- C3: creating n accounts from the empty store (valid payloads, content
type `application/json`) and then listing answers 200 with exactly n
serialized entries, each carrying an id that one of the n create responses
returned. -/
theorem C3_create_then_list (today : String) (ps : List Payload)
    (h : ∀ p ∈ ps, p.name.isSome ∧ p.email.isSome ∧ p.address.isSome) :
    (list_accounts (create_many today ps Store.empty).2).1.status = 200 ∧
    ∃ l : List AccountJson,
      (list_accounts (create_many today ps Store.empty).2).1.body = .jsonList l ∧
      l.length = ps.length ∧
      ∀ x ∈ l, some x.id ∈ (create_many today ps Store.empty).1.map respId := by
  obtain ⟨hlen, hmem⟩ := create_many_rows today ps Store.empty h
  refine ⟨rfl, (create_many today ps Store.empty).2.allRows.map serialize, rfl, ?_, ?_⟩
  · rw [List.length_map]
    simpa [Store.allRows, Store.empty] using hlen
  · intro x hx
    obtain ⟨r, hr, rfl⟩ := List.mem_map.mp hx
    rcases hmem r hr with hin | hin
    · simp [Store.empty] at hin
    · exact hin

theorem C3_create_then_list_witness :
    (∀ p ∈ [({ name := some "Ann", email := some "ann@x.io", address := some "1 A St",
               phone_number := none, date_joined := some "2024-01-01" } : Payload),
            ({ name := some "Bob", email := some "bob@x.io", address := some "2 B St",
               phone_number := some "555", date_joined := none } : Payload)],
        p.name.isSome ∧ p.email.isSome ∧ p.address.isSome) ∧
    (list_accounts (create_many "2024-01-02"
        [({ name := some "Ann", email := some "ann@x.io", address := some "1 A St",
            phone_number := none, date_joined := some "2024-01-01" } : Payload),
         ({ name := some "Bob", email := some "bob@x.io", address := some "2 B St",
            phone_number := some "555", date_joined := none } : Payload)]
        Store.empty).2).1.status = 200 :=
  ⟨by decide,
   (C3_create_then_list "2024-01-02"
      [({ name := some "Ann", email := some "ann@x.io", address := some "1 A St",
          phone_number := none, date_joined := some "2024-01-01" } : Payload),
       ({ name := some "Bob", email := some "bob@x.io", address := some "2 B St",
          phone_number := some "555", date_joined := none } : Payload)]
      (by decide)).1⟩
